import Mathlib

/-!
Shallow embedding of the video-downloader backend: the platform
registry and detector, the YouTube metadata format deduplication,
the download orchestrator, the media post-processor wrappers and the
user-creation endpoint.  Each definition is translated from the
Python source; external collaborators (the URL parser of the
standard library, the extraction library, the media tool and the
filesystem) enter as explicit inputs or as small documented models.
-/

/-- Registry entry of the platform table: matching domain suffixes,
display name and icon (src/routes/downloader.py, SUPPORTED_PLATFORMS). -/
structure PlatformInfo where
  domains : List String
  name : String
  icon : String
deriving DecidableEq

/-- The platform registry in its Python dict insertion order
(src/routes/downloader.py lines 16-52). -/
def SUPPORTED_PLATFORMS : List (String × PlatformInfo) :=
  [ ("youtube", ⟨["youtube.com", "youtu.be", "m.youtube.com"], "YouTube", "youtube"⟩),
    ("tiktok", ⟨["tiktok.com", "vm.tiktok.com", "m.tiktok.com"], "TikTok", "tiktok"⟩),
    ("instagram", ⟨["instagram.com", "instagr.am"], "Instagram", "instagram"⟩),
    ("facebook", ⟨["facebook.com", "fb.watch", "m.facebook.com"], "Facebook", "facebook"⟩),
    ("twitter", ⟨["twitter.com", "x.com", "t.co"], "Twitter/X", "twitter"⟩),
    ("vimeo", ⟨["vimeo.com"], "Vimeo", "vimeo"⟩),
    ("dailymotion", ⟨["dailymotion.com", "dai.ly"], "Dailymotion", "dailymotion"⟩) ]

/-- Python str.lower restricted to ASCII case mapping (every string
this development lowercases concretely is ASCII; the Python mapping
also folds some non-ASCII letters, which the registry suffixes never
contain). -/
def str_lower (s : String) : String :=
  String.mk (s.toList.map Char.toLower)

/-- Python str.startswith on code points. -/
def str_startswith (s pre : String) : Bool :=
  pre.toList.isPrefixOf s.toList

/-- Python str.endswith on code points. -/
def str_endswith (s post : String) : Bool :=
  post.toList.isSuffixOf s.toList

/-- Python slicing s[n:] on code points. -/
def str_drop (s : String) (n : ℕ) : String :=
  String.mk (s.toList.drop n)

/-- Python slicing s[:n] on code points. -/
def str_take (s : String) (n : ℕ) : String :=
  String.mk (s.toList.take n)

/-- Characters allowed in a URL scheme (ASCII letters, digits, plus,
minus, dot), as in the scheme character set of Python urllib.parse. -/
def isSchemeChar (c : Char) : Bool :=
  c.isAlpha || c.isDigit || c == '+' || c == '-' || c == '.'

/-- Model of the netloc extraction of the Python standard library
function urllib.parse.urlparse, the external collaborator detect_platform
delegates URL parsing to, for inputs free of ASCII control characters
and leading whitespace: an optional scheme (a letter followed by scheme
characters, up to the first colon at a positive index) is stripped; if
the remainder starts with two slashes, the netloc is the run of
characters up to the first slash, question mark or hash sign, and a
netloc with unbalanced square brackets raises ValueError, modelled as
none; without the two slashes the netloc is the empty string. -/
def urlparse_netloc (url : String) : Option String :=
  let cs := url.toList
  let rest :=
    match cs.findIdx? (fun c => c == ':') with
    | some i =>
      if 0 < i ∧ (cs.headD ' ').isAlpha ∧ (cs.take i).all isSchemeChar then
        cs.drop (i + 1)
      else cs
    | none => cs
  if rest.take 2 = ['/', '/'] then
    let netloc := (rest.drop 2).takeWhile (fun c => !(c == '/' || c == '?' || c == '#'))
    if (netloc.contains '[' && !netloc.contains ']')
        || (netloc.contains ']' && !netloc.contains '[') then none
    else some (String.mk netloc)
  else some ""

/-- Normalization detect_platform applies to the parsed netloc
(src/routes/downloader.py lines 58-62): lowercase, then strip one
leading www. component. -/
def normalize_host (netloc : String) : String :=
  let domain := str_lower netloc
  if str_startswith domain "www." then str_drop domain 4 else domain

/-- First registry entry, in insertion order, one of whose domain
suffixes the normalized host ends with (src/routes/downloader.py
lines 64-66). -/
def first_matching_platform (host : String) : Option String :=
  (SUPPORTED_PLATFORMS.find? (fun p => p.2.domains.any (fun d => str_endswith host d))).map
    (fun p => p.1)

/-- Platform detection (src/routes/downloader.py lines 54-70): parse the
URL, normalize the netloc and return the first matching registry entry;
a parse error is caught and yields none, as does a host matching no
registered suffix. -/
def detect_platform (url : String) : Option String :=
  match urlparse_netloc url with
  | none => none
  | some netloc => first_matching_platform (normalize_host netloc)

/-- Quality label from pixel height (src/utils/platform_extractors.py,
YouTubeExtractor, lines 207-222). -/
def get_quality_label (height : ℤ) : String :=
  if 2160 ≤ height then "4K"
  else if 1440 ≤ height then "1440p"
  else if 1080 ≤ height then "1080p"
  else if 720 ≤ height then "720p"
  else if 480 ≤ height then "480p"
  else if 360 ≤ height then "360p"
  else "240p"

/-- Raw format dictionary handed over by the extraction library, with
the fields YouTubeExtractor reads; none models an absent key. -/
structure RawFormat where
  format_id : Option String := none
  ext : Option String := none
  width : Option ℤ := none
  height : Option ℤ := none
  url : Option String := none
  filesize : Option ℕ := none
  fps : Option ℚ := none
  vcodec : Option String := none
  acodec : Option String := none
deriving DecidableEq

/-- Entry stored in quality_map by YouTubeExtractor._extract_formats
(src/utils/platform_extractors.py lines 191-201).  Its filesize field
is written as the raw filesize without a default, so it is None (here
none) exactly when the winning raw format had no filesize. -/
structure YTFormat where
  format_id : Option String
  ext : Option String
  quality : String
  resolution : String
  url : Option String
  filesize : Option ℕ
  fps : Option ℚ
  vcodec : Option String
  acodec : Option String
deriving DecidableEq

/-- The dictionary built at src/utils/platform_extractors.py
lines 191-201 from a raw format and its derived quality label. -/
def mkYTFormat (fmt : RawFormat) (label : String) : YTFormat :=
  { format_id := fmt.format_id, ext := fmt.ext, quality := label,
    resolution := toString (fmt.width.getD 0) ++ "x" ++ toString (fmt.height.getD 0),
    url := fmt.url, filesize := fmt.filesize, fps := fmt.fps,
    vcodec := fmt.vcodec, acodec := fmt.acodec }

/-- Python dict assignment on the association list modelling
quality_map: an existing key keeps its position, a new key is
appended at the end. -/
def qmSet : List (String × YTFormat) → String → YTFormat → List (String × YTFormat)
  | [], label, v => [(label, v)]
  | (k, w) :: rest, label, v =>
    if k = label then (label, v) :: rest else (k, w) :: qmSet rest label v

/-- Python dict key lookup on the association list modelling
quality_map. -/
def qmLookup (qm : List (String × YTFormat)) (label : String) : Option YTFormat :=
  (qm.find? (fun p => p.1 == label)).map (fun p => p.2)

/-- One iteration of the deduplication loop of
YouTubeExtractor._extract_formats (src/utils/platform_extractors.py
lines 185-201).  A format whose vcodec and acodec are not the string
none is considered; if its label is new it is inserted.  Otherwise
Python evaluates fmt.get(filesize, 0) > stored.get(filesize, 0): the
stored dict always carries the filesize key, so when the stored value
is None the comparison of int with None raises TypeError, modelled as
the error outcome; when it is a number, the new format replaces the
stored one exactly if its defaulted filesize is strictly larger. -/
def ytStep (qm : List (String × YTFormat)) (fmt : RawFormat) :
    Except Unit (List (String × YTFormat)) :=
  if fmt.vcodec ≠ some "none" ∧ fmt.acodec ≠ some "none" then
    let label := get_quality_label (fmt.height.getD 0)
    match qmLookup qm label with
    | none => .ok (qmSet qm label (mkYTFormat fmt label))
    | some cur =>
      match cur.filesize with
      | none => .error ()
      | some m =>
        if m < fmt.filesize.getD 0 then .ok (qmSet qm label (mkYTFormat fmt label))
        else .ok qm
  else .ok qm

/-- The deduplication loop over the raw format list, threading
quality_map and propagating the TypeError outcome. -/
def ytFold : List RawFormat → List (String × YTFormat) → Except Unit (List (String × YTFormat))
  | [], qm => .ok qm
  | f :: rest, qm =>
    match ytStep qm f with
    | .error e => .error e
    | .ok qm2 => ytFold rest qm2

/-- YouTubeExtractor._extract_formats (src/utils/platform_extractors.py
lines 177-205): fold the deduplication step over the raw formats
starting from an empty quality_map and return the stored values in
insertion order, or the TypeError outcome. -/
def yt_extract_formats (fmts : List RawFormat) : Except Unit (List YTFormat) :=
  (ytFold fmts []).map (fun qm => qm.map (fun p => p.2))

/-- Description field computed by get_video_info
(src/routes/downloader.py line 92): when the raw description is
missing (none) or empty the field is empty, otherwise it is the first
200 characters followed by three dots. -/
def truncate_description : Option String → String
  | none => ""
  | some s => if s = "" then "" else str_take s 200 ++ "..."

/-- Format selector string passed to the extraction library by
download_video (src/routes/downloader.py lines 124-139): the requested
quality and container with best-of-container and best-overall
fallbacks, overridden for tiktok to best mp4. -/
def download_format_string (url quality format_type : String) : String :=
  if detect_platform url = some "tiktok" then "best[ext=mp4]/best"
  else quality ++ "[ext=" ++ format_type ++ "]/best[ext=" ++ format_type ++ "]/best"

/-- Whether download_video additionally requests the mp4 conversion
post-processing step (src/routes/downloader.py lines 133-139): exactly
for tiktok URLs. -/
def download_requests_mp4_convert (url : String) : Bool :=
  detect_platform url = some "tiktok"

/-- File extension test of the download scan
(src/routes/downloader.py line 151). -/
def is_video_file (filename : String) : Bool :=
  str_endswith filename ".mp4" || str_endswith filename ".webm" ||
  str_endswith filename ".mkv" || str_endswith filename ".avi"

/-- Result record returned by download_video
(src/routes/downloader.py lines 155-161). -/
structure DownloadResult where
  file_path : String
  filename : String
  title : String
  size : ℕ
  temp_dir : String
deriving DecidableEq

/-- Scan of the temporary directory after the download
(src/routes/downloader.py lines 150-166): the directory listing enters
as a list of filename and byte-size pairs in listing order; the first
file with a video extension is returned, joined to the directory path;
otherwise the raised message, wrapped by the outer handler into the
download-failed text, is the error. -/
def find_downloaded_file (temp_dir title : String) :
    List (String × ℕ) → Except String DownloadResult
  | [] => .error "Download failed: No video file found after download"
  | (f, sz) :: rest =>
    if is_video_file f then
      .ok ⟨temp_dir ++ "/" ++ f, f, title, sz, temp_dir⟩
    else find_downloaded_file temp_dir title rest

/-- Outcome of one subprocess invocation of the media tool: an exit
code, or an exception raised before or during the call. -/
inductive ToolOutcome where
  | exit (code : ℤ)
  | exc
deriving DecidableEq

/-- The result.returncode == 0 test shared by every wrapper of
VideoProcessor, with an exception caught as False. -/
def runSuccess : ToolOutcome → Bool
  | .exit c => c == 0
  | .exc => false

/-- VideoProcessor.enhance_video_quality
(src/utils/video_processor.py lines 29-44). -/
def enhance_video_quality (input_path output_path target_resolution : String)
    (o : ToolOutcome) : Bool :=
  runSuccess o

/-- VideoProcessor.remove_watermark_by_cropping
(src/utils/video_processor.py lines 46-60). -/
def remove_watermark_by_cropping (input_path output_path crop_params : String)
    (o : ToolOutcome) : Bool :=
  runSuccess o

/-- The unpacking x, y, w, h = blur_region.split of
remove_watermark_by_blurring; a list of any other length raises
ValueError, caught as False. -/
def unpack4 (l : List String) : Option (String × String × String × String) :=
  match l with
  | [x, y, w, h] => some (x, y, w, h)
  | _ => none

/-- VideoProcessor.remove_watermark_by_blurring
(src/utils/video_processor.py lines 62-77): the region string is split
on colons and unpacked into four parts before the tool runs. -/
def remove_watermark_by_blurring (input_path output_path blur_region : String)
    (o : ToolOutcome) : Bool :=
  match unpack4 (blur_region.splitOn ":") with
  | some _ => runSuccess o
  | none => false

/-- VideoProcessor.convert_format
(src/utils/video_processor.py lines 79-92). -/
def convert_format (input_path output_path target_format : String)
    (o : ToolOutcome) : Bool :=
  runSuccess o

/-- Python int() truncation toward zero on a rational value. -/
def pyInt (q : ℚ) : ℤ :=
  q.num.tdiv q.den

/-- Bitrate arguments of VideoProcessor.compress_video
(src/utils/video_processor.py lines 94-116): the probed duration
enters as an optional rational (none for a missing field, defaulted to
0 as in the Python dict access); a zero duration yields none (the
early False return); otherwise the target bitrate is the truncated
quotient of target_size_mb times 8 times 1024 by the duration, the
maxrate value is 1.2 times it (the exact rational six fifths) and the
bufsize value is twice it, all in the k units of the argument list. -/
structure CompressArgs where
  bitrate : ℤ
  maxrate : ℚ
  bufsize : ℤ
deriving DecidableEq

/-- Computation of the compression arguments, none when the duration
defaults to or equals zero. -/
def compress_video_args (duration : Option ℚ) (target_size_mb : ℤ) : Option CompressArgs :=
  let d := duration.getD 0
  if d = 0 then none
  else
    let target_bitrate := pyInt ((target_size_mb * 8 * 1024 : ℚ) / d)
    some ⟨target_bitrate, (target_bitrate : ℚ) * (6 / 5), target_bitrate * 2⟩

/-- VideoProcessor.compress_video (src/utils/video_processor.py
lines 94-121): False when the duration check fails, otherwise the
subprocess success test. -/
def compress_video (duration : Option ℚ) (target_size_mb : ℤ) (o : ToolOutcome) : Bool :=
  match compress_video_args duration target_size_mb with
  | none => false
  | some _ => runSuccess o

/-- VideoProcessor.extract_audio
(src/utils/video_processor.py lines 123-135). -/
def extract_audio (input_path output_path : String) (o : ToolOutcome) : Bool :=
  runSuccess o

/-- VideoProcessor.create_thumbnail
(src/utils/video_processor.py lines 137-150). -/
def create_thumbnail (input_path output_path timestamp : String) (o : ToolOutcome) : Bool :=
  runSuccess o

/-- Persisted user row with the fields the duplicate check reads
(src/models/user.py). -/
structure UserRec where
  username : String
  email : String
deriving DecidableEq

/-- The POST /users handler create_user (src/models/user.py
lines 11-27) as a function of the current table and the two optional
JSON fields: a missing or empty field (Python falsiness) gives 400, an
existing username or email gives 409, otherwise the row is appended
with 201; the returned pair is the status code and the new table. -/
def create_user (table : List UserRec) (username email : Option String) :
    ℕ × List UserRec :=
  match username, email with
  | some un, some em =>
    if un = "" ∨ em = "" then (400, table)
    else if table.any (fun u => u.username == un || u.email == em) then (409, table)
    else (201, table ++ [⟨un, em⟩])
  | _, _ => (400, table)

/-- The five extractor classes instantiated by ExtractorFactory
(src/utils/platform_extractors.py lines 310-327). -/
inductive ExtractorKind where
  | tiktok | instagram | youtube | facebook | twitter
deriving DecidableEq

/-- The extractors table of ExtractorFactory
(src/utils/platform_extractors.py lines 313-319). -/
def ExtractorFactory_extractors : List (String × ExtractorKind) :=
  [("tiktok", .tiktok), ("instagram", .instagram), ("youtube", .youtube),
   ("facebook", .facebook), ("twitter", .twitter)]

/-- ExtractorFactory.get_extractor (src/utils/platform_extractors.py
lines 321-327): dict lookup of the platform id, none when absent. -/
def get_extractor (platform : String) : Option ExtractorKind :=
  (ExtractorFactory_extractors.find? (fun p => p.1 == platform)).map (fun p => p.2)

/-- A 720p video-plus-audio raw format without a filesize field. -/
def ytFmtNoSize : RawFormat :=
  { format_id := some "22", ext := some "mp4", width := some 1280,
    height := some 720, vcodec := some "avc1", acodec := some "mp4a" }

/-- A 720p video-plus-audio raw format with a defined filesize. -/
def ytFmtWithSize : RawFormat :=
  { format_id := some "18", ext := some "mp4", width := some 1280,
    height := some 720, filesize := some 1000,
    vcodec := some "avc1", acodec := some "mp4a" }

/-- Success of a tool run is exactly exit code zero. -/
theorem runSuccess_eq_true_iff (o : ToolOutcome) :
    runSuccess o = true ↔ o = ToolOutcome.exit 0 := by
  cases o <;> simp [runSuccess]

/-- The four-way unpacking succeeds exactly on lists of length four. -/
theorem unpack4_isSome_iff (l : List String) :
    (unpack4 l).isSome = true ↔ l.length = 4 := by
  rcases l with _ | ⟨a, _ | ⟨b, _ | ⟨c, _ | ⟨d, _ | ⟨e, rest⟩⟩⟩⟩⟩ <;>
    simp [unpack4]

/-- Claim C1, settled against the code as a code bug: the two raw
formats both derive the quality label 720p, the first has an undefined
file size and the second a defined one, yet the deduplication does not
retain the defined-size format: the stored filesize of the incumbent
is None, the Python comparison of int with None raises TypeError, and
extraction aborts with an error instead of a format list. -/
theorem yt_dedup_crashes_on_undefined_then_defined_size :
    get_quality_label (ytFmtNoSize.height.getD 0)
        = get_quality_label (ytFmtWithSize.height.getD 0)
    ∧ ytFmtNoSize.filesize = none
    ∧ ytFmtWithSize.filesize = some 1000
    ∧ yt_extract_formats [ytFmtNoSize, ytFmtWithSize] = Except.error () :=
  ⟨rfl, rfl, rfl, rfl⟩

/-- Claim C3: the quality label is a pure step function of pixel height
with thresholds 2160, 1440, 1080, 720, 480 and 360, everything below
360 mapping to 240p, and the 720p boundary lies exactly at 720: height
719 maps to 480p and height 720 maps to 720p. -/
theorem quality_label_step_function (h : ℤ) :
    (2160 ≤ h → get_quality_label h = "4K")
    ∧ (1440 ≤ h → h < 2160 → get_quality_label h = "1440p")
    ∧ (1080 ≤ h → h < 1440 → get_quality_label h = "1080p")
    ∧ (720 ≤ h → h < 1080 → get_quality_label h = "720p")
    ∧ (480 ≤ h → h < 720 → get_quality_label h = "480p")
    ∧ (360 ≤ h → h < 480 → get_quality_label h = "360p")
    ∧ (h < 360 → get_quality_label h = "240p")
    ∧ get_quality_label 719 = "480p"
    ∧ get_quality_label 720 = "720p" := by
  refine ⟨?_, ?_, ?_, ?_, ?_, ?_, ?_, by decide, by decide⟩ <;>
    · intros
      unfold get_quality_label
      split_ifs <;> first | rfl | omega

/-- Witness for claim C3 at one height per tier. -/
theorem quality_label_step_function_witness :
    get_quality_label 2160 = "4K" ∧ get_quality_label 1500 = "1440p"
    ∧ get_quality_label 1100 = "1080p" ∧ get_quality_label 721 = "720p"
    ∧ get_quality_label 500 = "480p" ∧ get_quality_label 400 = "360p"
    ∧ get_quality_label 100 = "240p" :=
  ⟨(quality_label_step_function 2160).1 (by decide),
   (quality_label_step_function 1500).2.1 (by decide) (by decide),
   (quality_label_step_function 1100).2.2.1 (by decide) (by decide),
   (quality_label_step_function 721).2.2.2.1 (by decide) (by decide),
   (quality_label_step_function 500).2.2.2.2.1 (by decide) (by decide),
   (quality_label_step_function 400).2.2.2.2.2.1 (by decide) (by decide),
   (quality_label_step_function 100).2.2.2.2.2.2.1 (by decide)⟩

/-- Claim C5: the description field of the metadata record is the
first 200 characters of the raw description followed by an ellipsis
marker when the description is present and non-empty, and the empty
string when it is missing or empty. -/
theorem description_truncation (s : String) :
    (s ≠ "" → truncate_description (some s) = str_take s 200 ++ "...")
    ∧ truncate_description (some "") = ""
    ∧ truncate_description none = "" := by
  refine ⟨fun h => ?_, rfl, rfl⟩
  simp [truncate_description, h]

/-- Witness for claim C5 on a concrete non-empty description. -/
theorem description_truncation_witness :
    truncate_description (some "hello") = str_take "hello" 200 ++ "..." :=
  (description_truncation "hello").1 (by decide)

/-- Claim C6: the format selector handed to the extraction library is
the requested quality and container with best-of-container and
best-overall fallbacks, except for tiktok URLs, which always get best
mp4 together with the mp4 conversion post-processing request. -/
theorem download_format_selector (url quality format_type : String) :
    (detect_platform url = some "tiktok" →
      download_format_string url quality format_type = "best[ext=mp4]/best"
        ∧ download_requests_mp4_convert url = true)
    ∧ (detect_platform url ≠ some "tiktok" →
      download_format_string url quality format_type =
          quality ++ "[ext=" ++ format_type ++ "]/best[ext=" ++ format_type ++ "]/best"
        ∧ download_requests_mp4_convert url = false) := by
  constructor <;> intro h <;>
    simp [download_format_string, download_requests_mp4_convert, h]

/-- Witness for claim C6 at a tiktok URL and a youtube URL. -/
theorem download_format_selector_witness :
    (download_format_string "https://vm.tiktok.com/abc" "720p" "webm" = "best[ext=mp4]/best"
      ∧ download_requests_mp4_convert "https://vm.tiktok.com/abc" = true)
    ∧ (download_format_string "https://www.youtube.com/watch?v=x" "720p" "webm" =
          "720p" ++ "[ext=" ++ "webm" ++ "]/best[ext=" ++ "webm" ++ "]/best"
      ∧ download_requests_mp4_convert "https://www.youtube.com/watch?v=x" = false) :=
  ⟨(download_format_selector "https://vm.tiktok.com/abc" "720p" "webm").1 (by decide),
   (download_format_selector "https://www.youtube.com/watch?v=x" "720p" "webm").2 (by decide)⟩

/-- Claim C2: detect_platform is the composition of the URL parse, the
host normalization (lowercase, strip a leading www.) and the ordered
first-suffix-match over the registry; a parse failure yields none, a
matching host yields the first matching registry entry together with
its witness domain, a host matching no registered suffix yields none,
and the three concrete examples behave as stated.  The Lean function
is total, mirroring the except handler that makes the Python function
raise-free. -/
theorem detect_platform_characterization :
    (∀ url netloc, urlparse_netloc url = some netloc →
      detect_platform url = first_matching_platform (normalize_host netloc))
    ∧ (∀ url, urlparse_netloc url = none → detect_platform url = none)
    ∧ (∀ host p, first_matching_platform host = some p →
      ∃ info, (p, info) ∈ SUPPORTED_PLATFORMS
        ∧ info.domains.any (fun d => str_endswith host d) = true)
    ∧ (∀ host,
      SUPPORTED_PLATFORMS.all (fun q => q.2.domains.all (fun d => !str_endswith host d)) = true →
      first_matching_platform host = none)
    ∧ detect_platform "https://www.youtube.com/watch?v=x" = some "youtube"
    ∧ detect_platform "https://vm.tiktok.com/abc" = some "tiktok"
    ∧ detect_platform "https://example.com" = none := by
  refine ⟨?_, ?_, ?_, ?_, by decide, by decide, by decide⟩
  · intro url netloc h
    simp [detect_platform, h]
  · intro url h
    simp [detect_platform, h]
  · intro host p h
    obtain ⟨q, hfind, hq⟩ := Option.map_eq_some'.mp h
    obtain ⟨p1, info⟩ := q
    cases hq
    refine ⟨info, List.mem_of_find?_eq_some hfind, ?_⟩
    simpa using List.find?_some hfind
  · intro host hall
    rw [first_matching_platform, List.find?_eq_none.mpr, Option.map_none']
    intro q hq
    have := List.all_eq_true.mp hall q hq
    simp only [List.all_eq_true, Bool.not_eq_true'] at this
    simp only [Bool.not_eq_true, List.any_eq_false]
    intro d hd
    exact this d hd

/-- Witness for claim C2: the parse-success case at the youtube URL,
the parse-failure case at a URL with unbalanced brackets, the
first-match case at the normalized youtube host and the no-match case
at an unregistered host. -/
theorem detect_platform_characterization_witness :
    detect_platform "https://www.youtube.com/watch?v=x"
        = first_matching_platform (normalize_host "www.youtube.com")
    ∧ detect_platform "https://[abc" = none
    ∧ (∃ info, ("youtube", info) ∈ SUPPORTED_PLATFORMS
        ∧ info.domains.any (fun d => str_endswith "youtube.com" d) = true)
    ∧ first_matching_platform "example.com" = none :=
  ⟨detect_platform_characterization.1 "https://www.youtube.com/watch?v=x"
      "www.youtube.com" (by decide),
   detect_platform_characterization.2.1 "https://[abc" (by decide),
   detect_platform_characterization.2.2.1 "youtube.com" "youtube" (by decide),
   detect_platform_characterization.2.2.2.1 "example.com" (by decide)⟩

/-- Claim C4: compress_video returns false when the probed duration is
missing or zero; for every positive duration the target bitrate is
target_size_mb times 8 times 1024 over the duration, truncated to an
integer, the maxrate value is 1.2 times (six fifths of) that bitrate
and the bufsize value twice it; at 50 MB and 100 seconds these are
4096, 4915.2 (the rational 24576 over 5) and 8192. -/
theorem compress_video_bitrate (d : Option ℚ) (mb : ℤ) (o : ToolOutcome) :
    (d.getD 0 = 0 → compress_video d mb o = false)
    ∧ (∀ q : ℚ, 0 < q →
      compress_video_args (some q) mb =
        some ⟨pyInt ((mb * 8 * 1024 : ℚ) / q),
              (pyInt ((mb * 8 * 1024 : ℚ) / q) : ℚ) * (6 / 5),
              pyInt ((mb * 8 * 1024 : ℚ) / q) * 2⟩)
    ∧ compress_video_args (some 100) 50 = some ⟨4096, 24576 / 5, 8192⟩ := by
  refine ⟨fun h0 => ?_, fun q hq => ?_, ?_⟩
  · simp [compress_video, compress_video_args, h0]
  · simp [compress_video_args, hq.ne']
  · norm_num [compress_video_args, pyInt]

/-- Witness for claim C4: a missing duration yields false, and the
formula applies at duration 100. -/
theorem compress_video_bitrate_witness :
    compress_video none 50 ToolOutcome.exc = false
    ∧ compress_video_args (some 100) 50 =
        some ⟨pyInt (((50 : ℤ) * 8 * 1024 : ℚ) / 100),
              (pyInt (((50 : ℤ) * 8 * 1024 : ℚ) / 100) : ℚ) * (6 / 5),
              pyInt (((50 : ℤ) * 8 * 1024 : ℚ) / 100) * 2⟩ :=
  ⟨(compress_video_bitrate none 50 ToolOutcome.exc).1 rfl,
   (compress_video_bitrate none 50 ToolOutcome.exc).2.1 100 (by norm_num)⟩

/-- Claim C7: the post-download scan returns the first file of the
directory listing whose name ends in mp4, webm, mkv or avi, packaged
with its joined path, name, byte size, title and directory; when no
such file exists the call fails with the no-file-produced download
error. -/
theorem download_file_scan (files : List (String × ℕ)) (title temp_dir : String) :
    (∀ f sz, files.find? (fun p => is_video_file p.1) = some (f, sz) →
      find_downloaded_file temp_dir title files =
        Except.ok ⟨temp_dir ++ "/" ++ f, f, title, sz, temp_dir⟩)
    ∧ (files.find? (fun p => is_video_file p.1) = none →
      find_downloaded_file temp_dir title files =
        Except.error "Download failed: No video file found after download") := by
  induction files with
  | nil => exact ⟨fun f sz h => by simp at h, fun _ => rfl⟩
  | cons hd tl ih =>
    obtain ⟨f0, sz0⟩ := hd
    by_cases hv : is_video_file f0 = true
    · refine ⟨fun f sz h => ?_, fun h => ?_⟩
      · simp only [List.find?_cons, hv] at h
        simp only [Option.some.injEq, Prod.mk.injEq] at h
        obtain ⟨rfl, rfl⟩ := h
        simp [find_downloaded_file, hv]
      · simp only [List.find?_cons, hv] at h
        exact absurd h (by simp)
    · have hvf : is_video_file f0 = false := by simpa using hv
      refine ⟨fun f sz h => ?_, fun h => ?_⟩
      · simp only [List.find?_cons, hvf] at h
        simpa [find_downloaded_file, hvf] using ih.1 f sz h
      · simp only [List.find?_cons, hvf] at h
        simpa [find_downloaded_file, hvf] using ih.2 h

/-- Witness for claim C7: a listing whose first video file comes after
a non-video file, and a listing with no video file. -/
theorem download_file_scan_witness :
    find_downloaded_file "/tmp/x" "title" [("notes.txt", 5), ("clip.mp4", 1000)] =
      Except.ok ⟨"/tmp/x" ++ "/" ++ "clip.mp4", "clip.mp4", "title", 1000, "/tmp/x"⟩
    ∧ find_downloaded_file "/tmp/x" "title" [("notes.txt", 5)] =
      Except.error "Download failed: No video file found after download" :=
  ⟨(download_file_scan [("notes.txt", 5), ("clip.mp4", 1000)] "title" "/tmp/x").1
      "clip.mp4" 1000 (by decide),
   (download_file_scan [("notes.txt", 5)] "title" "/tmp/x").2 (by decide)⟩

/-- Claim C8: every post-processing wrapper of VideoProcessor returns
a boolean that is true exactly when its guards pass and the external
tool exits with code zero — in particular true only on exit code zero,
false on any non-zero exit or exception; the Lean functions are total,
mirroring the except handlers that keep the Python methods from
raising.  The blurring wrapper additionally requires its region string
to split into exactly four parts, and the compression wrapper requires
the duration check to pass, both failing as false before the tool
runs. -/
theorem videoprocessor_bool_contract
    (inp outp res crop_params blur_region target_format ts : String)
    (dur : Option ℚ) (mb : ℤ) (o : ToolOutcome) :
    (enhance_video_quality inp outp res o = true ↔ o = ToolOutcome.exit 0)
    ∧ (remove_watermark_by_cropping inp outp crop_params o = true ↔ o = ToolOutcome.exit 0)
    ∧ (remove_watermark_by_blurring inp outp blur_region o = true ↔
        (blur_region.splitOn ":").length = 4 ∧ o = ToolOutcome.exit 0)
    ∧ (convert_format inp outp target_format o = true ↔ o = ToolOutcome.exit 0)
    ∧ (compress_video dur mb o = true ↔
        (compress_video_args dur mb).isSome = true ∧ o = ToolOutcome.exit 0)
    ∧ (extract_audio inp outp o = true ↔ o = ToolOutcome.exit 0)
    ∧ (create_thumbnail inp outp ts o = true ↔ o = ToolOutcome.exit 0) := by
  refine ⟨runSuccess_eq_true_iff o, runSuccess_eq_true_iff o, ?_,
    runSuccess_eq_true_iff o, ?_, runSuccess_eq_true_iff o, runSuccess_eq_true_iff o⟩
  · rw [← unpack4_isSome_iff]
    cases hu : unpack4 (blur_region.splitOn ":") <;>
      simp [remove_watermark_by_blurring, hu, runSuccess_eq_true_iff]
  · cases hc : compress_video_args dur mb <;>
      simp [compress_video, hc, runSuccess_eq_true_iff]

/-- Claim C9 counterexample: with a table containing the email, a
request that supplies that email but no username is a request whose
email already exists, yet the endpoint returns 400, not 409 (the
presence validation runs before the duplicate check); the table is
still unchanged. -/
theorem create_user_duplicate_counterexample :
    ([(⟨"bob", "dup@example.com"⟩ : UserRec)].any
        (fun u => u.email == "dup@example.com") = true)
    ∧ create_user [⟨"bob", "dup@example.com"⟩] none (some "dup@example.com")
        = (400, [⟨"bob", "dup@example.com"⟩])
    ∧ (create_user [⟨"bob", "dup@example.com"⟩] none (some "dup@example.com")).1 ≠ 409 := by
  decide

/-- Claim C9 as amended: a request that supplies a non-empty username
and a non-empty email, at least one of which already exists in the
table, gets status 409 and leaves the table unchanged — no duplicate
row is created. -/
theorem create_user_duplicate_409 (table : List UserRec) (un em : String)
    (hu : un ≠ "") (he : em ≠ "")
    (hdup : table.any (fun u => u.username == un || u.email == em) = true) :
    create_user table (some un) (some em) = (409, table) := by
  simp [create_user, hu, he, hdup]

/-- Witness for the amended claim C9 at a concrete duplicate
username. -/
theorem create_user_duplicate_409_witness :
    create_user [⟨"bob", "bob@example.com"⟩] (some "bob") (some "new@example.com")
      = (409, [⟨"bob", "bob@example.com"⟩]) :=
  create_user_duplicate_409 [⟨"bob", "bob@example.com"⟩] "bob" "new@example.com"
    (by decide) (by decide) (by decide)

/-- Claim C10: the factory returns an extractor exactly for the five
platform ids tiktok, instagram, youtube, facebook and twitter, and
none for every other id — in particular for vimeo and dailymotion,
both of which the platform registry nevertheless lists. -/
theorem get_extractor_exactly_five_platforms (p : String)
    (h1 : p ≠ "tiktok") (h2 : p ≠ "instagram") (h3 : p ≠ "youtube")
    (h4 : p ≠ "facebook") (h5 : p ≠ "twitter") :
    get_extractor p = none
    ∧ get_extractor "tiktok" = some ExtractorKind.tiktok
    ∧ get_extractor "instagram" = some ExtractorKind.instagram
    ∧ get_extractor "youtube" = some ExtractorKind.youtube
    ∧ get_extractor "facebook" = some ExtractorKind.facebook
    ∧ get_extractor "twitter" = some ExtractorKind.twitter
    ∧ get_extractor "vimeo" = none
    ∧ get_extractor "dailymotion" = none
    ∧ "vimeo" ∈ SUPPORTED_PLATFORMS.map (fun q => q.1)
    ∧ "dailymotion" ∈ SUPPORTED_PLATFORMS.map (fun q => q.1) := by
  refine ⟨?_, by decide, by decide, by decide, by decide, by decide,
    by decide, by decide, by decide, by decide⟩
  simp [get_extractor, ExtractorFactory_extractors, List.find?_cons, beq_iff_eq,
    Ne.symm h1, Ne.symm h2, Ne.symm h3, Ne.symm h4, Ne.symm h5]

/-- Witness for claim C10 at the registered-but-extractorless id
vimeo. -/
theorem get_extractor_exactly_five_platforms_witness :
    get_extractor "vimeo" = none :=
  (get_extractor_exactly_five_platforms "vimeo" (by decide) (by decide)
    (by decide) (by decide) (by decide)).1
